import Mathlib

/-!
Verification of the `tempfile` crate's `NamedTempFile` lifecycle
(`src/lib.rs`), as a shallow embedding.

Paths and open file handles are abstracted as natural numbers; the
filesystem is an association list from paths to (abstract) file
contents.  Every lifecycle operation additionally emits a trace of the
primitive OS actions it performs (closing a handle, removing a file,
renaming), so that ordering claims ("closes the handle, then deletes
the file") are directly statable.

The Rust `unwrap` calls on the internal `Option` are modelled by
returning `Option` from the corresponding Lean functions: `none` is a
panic.  The external OS collaborators (`imp::create_named`,
`fs::rename`, `fs::remove_file`) are not part of `src/lib.rs`; creation
attempts are abstracted as an oracle of outcomes, and rename is passed
to `persist` as a function parameter, with a concrete model of
rename-with-replace supplied for the success-path claims.
-/

namespace Tempfile

/-- Abstract filesystem path. -/
abbrev Path := Nat

/-- Abstract file content (an opaque identifier; byte-level I/O is out of
scope per the spec). -/
abbrev Content := Nat

/-- The error kinds of `std::io::ErrorKind` that this crate's logic
distinguishes. -/
inductive ErrorKind where
  | alreadyExists
  | notFound
  | permissionDenied
  | crossDeviceLink
  | other (code : Nat)
deriving DecidableEq, Repr

/-- An I/O error, identified by its kind. -/
structure IoError where
  kind : ErrorKind
deriving DecidableEq, Repr

/-- A filesystem: an association list from paths to contents.  The first
entry for a path is its current content. -/
structure FS where
  entries : List (Path × Content)
deriving DecidableEq, Repr

/-- Look up the content at a path. -/
def FS.lookup (fs : FS) (p : Path) : Option Content :=
  (fs.entries.find? (fun e => e.1 = p)).map (fun e => e.2)

/-- Remove every entry at a path. -/
def FS.erase (fs : FS) (p : Path) : FS :=
  ⟨fs.entries.filter (fun e => ¬ e.1 = p)⟩

/-- Set the content at a path, replacing any existing entry. -/
def FS.insert (fs : FS) (p : Path) (c : Content) : FS :=
  ⟨(p, c) :: (fs.erase p).entries⟩

/-- Primitive OS actions, recorded in traces. -/
inductive FsOp where
  | closeHandle (h : Nat)
  | removeFile (p : Path)
  | rename (src dst : Path)
deriving DecidableEq, Repr

/-- Model of `std::fs::remove_file`: deletes the entry at `p`, failing
with `NotFound` when no entry exists. -/
def fsRemoveFile (fs : FS) (p : Path) : Except IoError FS :=
  match fs.lookup p with
  | some _ => .ok (fs.erase p)
  | none => .error ⟨ErrorKind.notFound⟩

/-- Modelled from the spec: the OS collaborator "atomic
rename-with-replace" (`std::fs::rename`, outside this repository); it
moves the entry at `src` to `dst`, atomically replacing any existing
entry at `dst`, and fails when `src` does not exist. -/
def fsRename (fs : FS) (src dst : Path) : Except IoError FS :=
  match fs.lookup src with
  | some c => .ok ((fs.erase src).insert dst c)
  | none => .error ⟨ErrorKind.notFound⟩

/-- The private inner body of a named temporary file: an open handle and
the path it was created at (`NamedTempFileInner` in the source). -/
structure NamedTempFileInner where
  file : Nat
  path : Path
deriving DecidableEq, Repr

/-- A named temporary file: `Some` inner body while Active, `none` once
Consumed (`pub struct NamedTempFile(Option<NamedTempFileInner>)`). -/
structure NamedTempFile where
  inner : Option NamedTempFileInner
deriving DecidableEq, Repr

/-- Error returned when persisting a temporary file fails: owns the
underlying I/O error and the temporary file itself. -/
structure PersistError where
  error : IoError
  file : NamedTempFile
deriving DecidableEq, Repr

/-- The private accessor `inner()`: unwraps the option (`none` models the
panic on a Consumed object). -/
def getInner (t : NamedTempFile) : Option NamedTempFileInner :=
  t.inner

/-- The public `path()` accessor: unwraps and projects the path. -/
def pathOfTemp (t : NamedTempFile) : Option Path :=
  (getInner t).map (fun i => i.path)

/-- One iteration step of `NamedTempFile::new_in`, run from attempt
index `k` with `fuel` iterations allowed.  `pathAt k` is the candidate
path `dir.join(util::tmpname())` generated at attempt `k`, and `att k`
the outcome of `imp::create_named` on it (an open handle, or an error).
Returns `none` when fuel runs out (the loop in the source is unbounded). -/
def newInLoop (pathAt : Nat → Path) (att : Nat → Except IoError Nat) :
    Nat → Nat → Option (Except IoError NamedTempFile)
  | _, 0 => none
  | k, fuel + 1 =>
    match att k with
    | .ok f => some (.ok ⟨some ⟨f, pathAt k⟩⟩)
    | .error e =>
      if e.kind = ErrorKind.alreadyExists then
        newInLoop pathAt att (k + 1) fuel
      else
        some (.error e)

/-- `NamedTempFile::new_in`: the retry loop started at attempt 0. -/
def new_in (pathAt : Nat → Path) (att : Nat → Except IoError Nat)
    (fuel : Nat) : Option (Except IoError NamedTempFile) :=
  newInLoop pathAt att 0 fuel

/-- Whether a creation attempt outcome causes a retry (an
`AlreadyExists` error). -/
def isRetry (r : Except IoError Nat) : Bool :=
  match r with
  | .error e => e.kind = ErrorKind.alreadyExists
  | .ok _ => false

/-- `NamedTempFile::close`: takes the inner body (panicking if already
Consumed), drops the handle, then removes the file at the recorded path,
returning the removal outcome.  Result: the Consumed object, the
returned `io::Result<()>`, the new filesystem, and the trace. -/
def close (t : NamedTempFile) (fs : FS) :
    Option (NamedTempFile × Except IoError Unit × FS × List FsOp) :=
  match t.inner with
  | none => none
  | some i =>
    let tr := [FsOp.closeHandle i.file, FsOp.removeFile i.path]
    match fsRemoveFile fs i.path with
    | .ok fs2 => some (⟨none⟩, .ok (), fs2, tr)
    | .error e => some (⟨none⟩, .error e, fs, tr)

/-- `NamedTempFile::into_path`: takes the inner body (panicking if
already Consumed), drops the handle (the `file` field is discarded by
the pattern), and returns the path.  The filesystem is not touched at
all (the function does not even take it as input). -/
def intoPath (t : NamedTempFile) : Option (Path × NamedTempFile × List FsOp) :=
  match t.inner with
  | none => none
  | some i => some (i.path, ⟨none⟩, [FsOp.closeHandle i.file])

/-- `NamedTempFile::persist`: renames the temporary file to `newPath`
using the OS rename collaborator `renameFn`.  On success the object is
Consumed and the open handle is returned; on failure a `PersistError`
owning the error and the untouched, still-Active object is returned.
Panics (`none`) if the object is already Consumed. -/
def persist (renameFn : FS → Path → Path → Except IoError FS)
    (t : NamedTempFile) (newPath : Path) (fs : FS) :
    Option (Except PersistError Nat × NamedTempFile × FS × List FsOp) :=
  match t.inner with
  | none => none
  | some i =>
    match renameFn fs i.path newPath with
    | .ok fs2 => some (.ok i.file, ⟨none⟩, fs2, [FsOp.rename i.path newPath])
    | .error e => some (.error ⟨e, t⟩, t, fs, [FsOp.rename i.path newPath])

/-- `Drop for NamedTempFile`: if the object is still Active, take the
inner body, drop the handle, then delete the file at the path, with any
deletion error discarded (the return type has no error channel); if
already Consumed, do nothing. -/
def dropNamed (t : NamedTempFile) (fs : FS) : NamedTempFile × FS × List FsOp :=
  match t.inner with
  | none => (t, fs, [])
  | some i =>
    let fs2 := match fsRemoveFile fs i.path with
      | .ok fs3 => fs3
      | .error _ => fs
    (⟨none⟩, fs2, [FsOp.closeHandle i.file, FsOp.removeFile i.path])

/-- The `From<PersistError> for io::Error` conversion: yields the
embedded I/O error; the embedded `NamedTempFile` goes out of scope, so
its destructor runs.  Result: the error, the dropped object, the
filesystem after the destructor, and the destructor's trace. -/
def ioErrorOfPersistError (pe : PersistError) (fs : FS) :
    IoError × NamedTempFile × FS × List FsOp :=
  let d := dropNamed pe.file fs
  (pe.error, d.1, d.2.1, d.2.2)

/-- The number of file-deletion attempts in a trace. -/
def countRemoves (tr : List FsOp) : Nat :=
  tr.countP (fun op => match op with | FsOp.removeFile _ => true | _ => false)

/-- The one consuming lifecycle event of a named temporary file's life.
Rust's ownership discipline guarantees at most one by-value operation is
ever invoked; abandonment is scope exit with none of them. -/
inductive LifeAction where
  | doClose
  | doPersist (renameFn : FS → Path → Path → Except IoError FS) (dst : Path)
  | doIntoPath
  | doAbandon

/-- Run one whole life of a named temporary file: the chosen consuming
operation, followed by every destructor that still has something to
drop (the object itself after `close`/`into_path`, the file inside a
failed persist's `PersistError` when that error is discarded).
Returns the final object, final filesystem and the full trace. -/
def runLife (t : NamedTempFile) (fs : FS) (a : LifeAction) :
    NamedTempFile × FS × List FsOp :=
  match a with
  | .doAbandon => dropNamed t fs
  | .doClose =>
    match close t fs with
    | some (t2, _, fs2, tr) =>
      let d := dropNamed t2 fs2
      (d.1, d.2.1, tr ++ d.2.2)
    | none => dropNamed t fs
  | .doIntoPath =>
    match intoPath t with
    | some (_, t2, tr) =>
      let d := dropNamed t2 fs
      (d.1, d.2.1, tr ++ d.2.2)
    | none => dropNamed t fs
  | .doPersist renameFn dst =>
    match persist renameFn t dst fs with
    | some (.ok _, t2, fs2, tr) =>
      let d := dropNamed t2 fs2
      (d.1, d.2.1, tr ++ d.2.2)
    | some (.error pe, _, fs2, tr) =>
      let d := dropNamed pe.file fs2
      (d.1, d.2.1, tr ++ d.2.2)
    | none => dropNamed t fs

/-! Helper lemmas about the creation retry loop. -/

/-- An error produced by the loop is never an `AlreadyExists` error. -/
theorem newInLoop_error_kind (pathAt : Nat → Path)
    (att : Nat → Except IoError Nat) :
    ∀ fuel k e, newInLoop pathAt att k fuel = some (.error e) →
      e.kind ≠ ErrorKind.alreadyExists := by
  intro fuel
  induction fuel with
  | zero => intro k e h; simp [newInLoop] at h
  | succ n ih =>
    intro k e h
    cases hatt : att k with
    | ok f => simp only [newInLoop, hatt] at h; simp at h
    | error e2 =>
      simp only [newInLoop, hatt] at h
      by_cases hk : e2.kind = ErrorKind.alreadyExists
      · rw [if_pos hk] at h
        exact ih (k + 1) e h
      · rw [if_neg hk] at h
        simp at h
        rw [← h]
        exact hk

/-- A successfully created object is Active. -/
theorem newInLoop_ok_active (pathAt : Nat → Path)
    (att : Nat → Except IoError Nat) :
    ∀ fuel k t, newInLoop pathAt att k fuel = some (.ok t) →
      t.inner.isSome := by
  intro fuel
  induction fuel with
  | zero => intro k t h; simp [newInLoop] at h
  | succ n ih =>
    intro k t h
    cases hatt : att k with
    | ok f =>
      simp only [newInLoop, hatt] at h
      simp at h
      rw [← h]
      rfl
    | error e2 =>
      simp only [newInLoop, hatt] at h
      by_cases hk : e2.kind = ErrorKind.alreadyExists
      · rw [if_pos hk] at h
        exact ih (k + 1) t h
      · rw [if_neg hk] at h
        simp at h

/-- The loop runs out of fuel exactly when every attempt it can reach is
an `AlreadyExists` error. -/
theorem newInLoop_none_iff (pathAt : Nat → Path)
    (att : Nat → Except IoError Nat) :
    ∀ fuel k, newInLoop pathAt att k fuel = none ↔
      ∀ n, k ≤ n → n < k + fuel → isRetry (att n) = true := by
  intro fuel
  induction fuel with
  | zero =>
    intro k
    simp [newInLoop]
    intro n hk hn
    omega
  | succ m ih =>
    intro k
    constructor
    · intro h n hk hn
      cases hatt : att k with
      | ok f => simp only [newInLoop, hatt] at h; simp at h
      | error e2 =>
        simp only [newInLoop, hatt] at h
        by_cases hke : e2.kind = ErrorKind.alreadyExists
        · rw [if_pos hke] at h
          rcases Nat.eq_or_lt_of_le hk with heq | hlt
          · rw [← heq, hatt]
            simp [isRetry, hke]
          · exact (ih (k + 1)).1 h n hlt (by omega)
        · rw [if_neg hke] at h
          simp at h
    · intro h
      have hk : isRetry (att k) = true := h k (Nat.le_refl k) (by omega)
      cases hatt : att k with
      | ok f => rw [hatt] at hk; simp [isRetry] at hk
      | error e2 =>
        rw [hatt] at hk
        simp [isRetry] at hk
        simp only [newInLoop, hatt]
        rw [if_pos hk]
        exact (ih (k + 1)).2 (fun n h1 h2 => h n (by omega) (by omega))

/-- Concrete creation oracle for witnesses: the first attempt collides,
the second succeeds with handle 7. -/
def attEx : Nat → Except IoError Nat :=
  fun n => if n = 0 then .error ⟨ErrorKind.alreadyExists⟩ else .ok 7

/-- Concrete candidate-path oracle for witnesses. -/
def pathEx : Nat → Path :=
  fun n => n + 10

/-- Concrete oracle for witnesses in which every candidate path already
exists. -/
def attAllExist : Nat → Except IoError Nat :=
  fun _ => .error ⟨ErrorKind.alreadyExists⟩

/-- Concrete oracle for witnesses in which creation fails fatally. -/
def attFatal : Nat → Except IoError Nat :=
  fun _ => .error ⟨ErrorKind.permissionDenied⟩

/-- C1: the creation loop of `NamedTempFile::new_in` retries with a fresh
candidate exactly when `create_named` fails with `AlreadyExists`
(conjunct 1); every other error is returned immediately (conjunct 2); a
successful creation returns immediately (conjunct 3); consequently an
`AlreadyExists` error is never returned from `new_in` (conjunct 4). -/
theorem new_in_retry_policy (pathAt : Nat → Path)
    (att : Nat → Except IoError Nat) :
    (∀ k fuel e, att k = .error e → e.kind = ErrorKind.alreadyExists →
        newInLoop pathAt att k (fuel + 1) = newInLoop pathAt att (k + 1) fuel)
  ∧ (∀ k fuel e, att k = .error e → e.kind ≠ ErrorKind.alreadyExists →
        newInLoop pathAt att k (fuel + 1) = some (.error e))
  ∧ (∀ k fuel f, att k = .ok f →
        newInLoop pathAt att k (fuel + 1) =
          some (.ok ⟨some ⟨f, pathAt k⟩⟩))
  ∧ (∀ fuel e, new_in pathAt att fuel = some (.error e) →
        e.kind ≠ ErrorKind.alreadyExists) := by
  refine ⟨?_, ?_, ?_, ?_⟩
  · intro k fuel e he hk
    simp only [newInLoop, he]
    rw [if_pos hk]
  · intro k fuel e he hk
    simp only [newInLoop, he]
    rw [if_neg hk]
  · intro k fuel f hf
    simp only [newInLoop, hf]
  · intro fuel e h
    exact newInLoop_error_kind pathAt att fuel 0 e h

/-- Witness for C1 at concrete oracles: attempt 0 collides and is
retried, attempt 1 succeeds; a fatal error is returned at once and its
kind is not `AlreadyExists`. -/
theorem new_in_retry_policy_witness :
    newInLoop pathEx attEx 0 2 = newInLoop pathEx attEx 1 1
  ∧ newInLoop pathEx attFatal 0 1 =
      some (.error ⟨ErrorKind.permissionDenied⟩)
  ∧ newInLoop pathEx attEx 1 1 = some (.ok ⟨some ⟨7, pathEx 1⟩⟩)
  ∧ IoError.kind ⟨ErrorKind.permissionDenied⟩ ≠ ErrorKind.alreadyExists := by
  refine ⟨(new_in_retry_policy pathEx attEx).1 0 1 ⟨ErrorKind.alreadyExists⟩
            rfl rfl,
          (new_in_retry_policy pathEx attFatal).2.1 0 0
            ⟨ErrorKind.permissionDenied⟩ rfl (by decide),
          (new_in_retry_policy pathEx attEx).2.2.1 1 0 7 rfl,
          (new_in_retry_policy pathEx attFatal).2.2.2 1
            ⟨ErrorKind.permissionDenied⟩ rfl⟩

/-- C8: `NamedTempFile::new_in` terminates (some fuel suffices) exactly
when some creation attempt returns a result other than an
`AlreadyExists` error; when every candidate path already exists the
loop never returns, whatever the fuel. -/
theorem new_in_termination (pathAt : Nat → Path)
    (att : Nat → Except IoError Nat) :
    ((∃ fuel, (new_in pathAt att fuel).isSome) ↔
        (∃ n, isRetry (att n) = false))
  ∧ ((∀ n, isRetry (att n) = true) →
        ∀ fuel, new_in pathAt att fuel = none) := by
  constructor
  · constructor
    · rintro ⟨fuel, hf⟩
      by_contra hall
      push_neg at hall
      have hnone : new_in pathAt att fuel = none :=
        (newInLoop_none_iff pathAt att fuel 0).2 (fun n _ _ => by
          have := hall n
          simpa using this)
      rw [hnone] at hf
      simp at hf
    · rintro ⟨n, hn⟩
      refine ⟨n + 1, ?_⟩
      rw [Option.isSome_iff_ne_none]
      intro hnone
      have := (newInLoop_none_iff pathAt att (n + 1) 0).1 hnone n
        (Nat.zero_le n) (by omega)
      rw [this] at hn
      exact Bool.noConfusion hn
  · intro hall fuel
    exact (newInLoop_none_iff pathAt att fuel 0).2 (fun n _ _ => hall n)

/-- Witness for C8: with the collide-once oracle the loop terminates;
with the always-colliding oracle it returns nothing at fuel 5. -/
theorem new_in_termination_witness :
    (∃ fuel, (new_in pathEx attEx fuel).isSome)
  ∧ new_in pathEx attAllExist 5 = none := by
  constructor
  · exact (new_in_termination pathEx attEx).1.2 ⟨1, rfl⟩
  · exact (new_in_termination pathEx attAllExist).2 (fun n => rfl) 5

/-! Helper lemmas about the filesystem model. -/

/-- Searching for `q` is unaffected by filtering out entries at a
different path `p`. -/
theorem find?_filter_ne (l : List (Path × Content)) (p q : Path)
    (hne : q ≠ p) :
    List.find? (fun e => e.1 = q) (List.filter (fun e => ¬ e.1 = p) l) =
      List.find? (fun e => e.1 = q) l := by
  induction l with
  | nil => rfl
  | cons a l ih =>
    simp only [List.filter_cons]
    by_cases hap : a.1 = p
    · have haq : ¬ a.1 = q := by rw [hap]; exact fun hh => hne hh.symm
      rw [if_neg (by simp [hap])]
      rw [List.find?_cons_of_neg _ (by simp [haq])]
      exact ih
    · rw [if_pos (by simp [hap])]
      by_cases haq : a.1 = q
      · rw [List.find?_cons_of_pos _ (by simp [haq]),
          List.find?_cons_of_pos _ (by simp [haq])]
      · rw [List.find?_cons_of_neg _ (by simp [haq]),
          List.find?_cons_of_neg _ (by simp [haq])]
        exact ih

/-- No entry at `p` survives filtering out entries at `p`. -/
theorem find?_filter_self (l : List (Path × Content)) (p : Path) :
    List.find? (fun e => e.1 = p) (List.filter (fun e => ¬ e.1 = p) l) =
      none := by
  induction l with
  | nil => rfl
  | cons a l ih =>
    simp only [List.filter_cons]
    by_cases hap : a.1 = p
    · rw [if_neg (by simp [hap])]
      exact ih
    · rw [if_pos (by simp [hap])]
      rw [List.find?_cons_of_neg _ (by simp [hap])]
      exact ih

/-- Lookup after erasing a path. -/
theorem FS.lookup_erase (fs : FS) (p q : Path) :
    (fs.erase p).lookup q = if q = p then none else fs.lookup q := by
  by_cases h : q = p
  · subst h
    rw [if_pos rfl]
    simp only [FS.lookup, FS.erase]
    rw [find?_filter_self fs.entries q]
    rfl
  · rw [if_neg h]
    simp only [FS.lookup, FS.erase]
    rw [find?_filter_ne fs.entries p q h]

/-- Lookup after inserting at a path. -/
theorem FS.lookup_insert (fs : FS) (p q : Path) (c : Content) :
    (fs.insert p c).lookup q = if q = p then some c else fs.lookup q := by
  by_cases h : q = p
  · subst h
    rw [if_pos rfl]
    simp only [FS.insert, FS.lookup]
    rw [List.find?_cons_of_pos _ (by simp)]
    rfl
  · rw [if_neg h]
    simp only [FS.insert, FS.lookup]
    rw [List.find?_cons_of_neg _ (by simp; exact fun hh => h hh.symm)]
    have he := FS.lookup_erase fs p q
    rw [if_neg h] at he
    simpa only [FS.lookup] using he

/-- Concrete Active temporary file for witnesses: handle 3, path 5. -/
def tEx : NamedTempFile := ⟨some ⟨3, 5⟩⟩

/-- Concrete filesystem for witnesses: the temporary file at path 5
with content 42, and an unrelated file at path 9 with content 7. -/
def fsEx : FS := ⟨[(5, 42), (9, 7)]⟩

/-- Concrete always-failing rename collaborator for witnesses
(cross-filesystem rename). -/
def renameFailEx : FS → Path → Path → Except IoError FS :=
  fun _ _ _ => .error ⟨ErrorKind.crossDeviceLink⟩

/-- C2: when the rename fails, `persist` returns a `PersistError` that
owns the triggering I/O error together with the original, unchanged,
still-Active object (same path and handle), and nothing is deleted or
renamed (the filesystem is unchanged; the only attempted OS action is
the rename itself). -/
theorem persist_failure_keeps_active
    (renameFn : FS → Path → Path → Except IoError FS)
    (t : NamedTempFile) (fs : FS) (newPath : Path)
    (i : NamedTempFileInner) (e : IoError)
    (h : t.inner = some i) (hr : renameFn fs i.path newPath = .error e) :
    persist renameFn t newPath fs =
      some (.error ⟨e, t⟩, t, fs, [FsOp.rename i.path newPath])
  ∧ (PersistError.mk e t).file.inner = some i
  ∧ (PersistError.mk e t).error = e := by
  refine ⟨?_, h, rfl⟩
  simp [persist, h, hr]

/-- Witness for C2 at a concrete cross-device rename failure. -/
theorem persist_failure_keeps_active_witness :
    persist renameFailEx tEx 9 fsEx =
      some (.error ⟨⟨ErrorKind.crossDeviceLink⟩, tEx⟩, tEx, fsEx,
        [FsOp.rename 5 9]) :=
  (persist_failure_keeps_active renameFailEx tEx fsEx 9 ⟨3, 5⟩
    ⟨ErrorKind.crossDeviceLink⟩ rfl rfl).1

/-- C3: on success, `persist` atomically renames the temporary file to
`newPath`, replacing whatever was there (the new filesystem maps
`newPath` to the temporary file's content unconditionally); the object
transitions to Consumed, the open handle is returned to the caller, and
the destructor of the Consumed object performs nothing afterwards. -/
theorem persist_success_spec (t : NamedTempFile) (fs : FS)
    (newPath : Path) (i : NamedTempFileInner) (c : Content)
    (h : t.inner = some i) (hc : fs.lookup i.path = some c) :
    persist fsRename t newPath fs =
      some (.ok i.file, ⟨none⟩, (fs.erase i.path).insert newPath c,
        [FsOp.rename i.path newPath])
  ∧ ((fs.erase i.path).insert newPath c).lookup newPath = some c
  ∧ (newPath ≠ i.path →
      ((fs.erase i.path).insert newPath c).lookup i.path = none)
  ∧ dropNamed ⟨none⟩ ((fs.erase i.path).insert newPath c) =
      (⟨none⟩, (fs.erase i.path).insert newPath c, []) := by
  refine ⟨?_, ?_, ?_, rfl⟩
  · simp [persist, h, fsRename, hc]
  · rw [FS.lookup_insert, if_pos rfl]
  · intro hne
    rw [FS.lookup_insert, if_neg (fun hh => hne hh.symm),
      FS.lookup_erase, if_pos rfl]

/-- Witness for C3: persisting the file at path 5 over the existing
file at path 9 replaces it. -/
theorem persist_success_spec_witness :
    persist fsRename tEx 9 fsEx =
      some (.ok 3, ⟨none⟩, (fsEx.erase 5).insert 9 42, [FsOp.rename 5 9])
  ∧ ((fsEx.erase 5).insert 9 42).lookup 9 = some 42
  ∧ ((fsEx.erase 5).insert 9 42).lookup 5 = none := by
  have h := persist_success_spec tEx fsEx 9 ⟨3, 5⟩ 42 rfl rfl
  exact ⟨h.1, h.2.1, h.2.2.1 (by decide)⟩

/-- C4: `close` transitions the object to Consumed, closes the handle
and then deletes the file at the recorded path, and returns the
deletion's outcome: `Ok` on success, or the deletion's I/O error
(e.g. when the path was already removed out-of-band). -/
theorem close_spec (t : NamedTempFile) (fs : FS) (i : NamedTempFileInner)
    (h : t.inner = some i) :
    (∀ fs2, fsRemoveFile fs i.path = .ok fs2 →
        close t fs = some (⟨none⟩, .ok (), fs2,
          [FsOp.closeHandle i.file, FsOp.removeFile i.path]))
  ∧ (∀ e, fsRemoveFile fs i.path = .error e →
        close t fs = some (⟨none⟩, .error e, fs,
          [FsOp.closeHandle i.file, FsOp.removeFile i.path])) := by
  constructor <;> intro x hx <;> simp [close, h, hx]

/-- Witness for C4: closing with the file present succeeds; closing
after the file was removed out-of-band surfaces `NotFound`. -/
theorem close_spec_witness :
    close tEx fsEx = some (⟨none⟩, .ok (), fsEx.erase 5,
      [FsOp.closeHandle 3, FsOp.removeFile 5])
  ∧ close tEx ⟨[]⟩ = some (⟨none⟩, .error ⟨ErrorKind.notFound⟩, ⟨[]⟩,
      [FsOp.closeHandle 3, FsOp.removeFile 5]) :=
  ⟨(close_spec tEx fsEx ⟨3, 5⟩ rfl).1 (fsEx.erase 5) rfl,
   (close_spec tEx ⟨[]⟩ ⟨3, 5⟩ rfl).2 ⟨ErrorKind.notFound⟩ rfl⟩

/-- C5: the destructor of an Active object transitions it to Consumed,
closes the handle and then attempts to delete the file; a deletion
error is discarded — the destructor returns normally with the
filesystem unchanged and its result type carries no error channel. -/
theorem drop_best_effort (t : NamedTempFile) (fs : FS)
    (i : NamedTempFileInner) (h : t.inner = some i) :
    (∀ fs2, fsRemoveFile fs i.path = .ok fs2 →
        dropNamed t fs = (⟨none⟩, fs2,
          [FsOp.closeHandle i.file, FsOp.removeFile i.path]))
  ∧ (∀ e, fsRemoveFile fs i.path = .error e →
        dropNamed t fs = (⟨none⟩, fs,
          [FsOp.closeHandle i.file, FsOp.removeFile i.path])) := by
  constructor <;> intro x hx <;> simp [dropNamed, h, hx]

/-- Witness for C5: dropping with the file present deletes it; dropping
with the file already gone still returns normally, the error silently
discarded. -/
theorem drop_best_effort_witness :
    dropNamed tEx fsEx = (⟨none⟩, fsEx.erase 5,
      [FsOp.closeHandle 3, FsOp.removeFile 5])
  ∧ dropNamed tEx ⟨[]⟩ = (⟨none⟩, ⟨[]⟩,
      [FsOp.closeHandle 3, FsOp.removeFile 5]) :=
  ⟨(drop_best_effort tEx fsEx ⟨3, 5⟩ rfl).1 (fsEx.erase 5) rfl,
   (drop_best_effort tEx ⟨[]⟩ ⟨3, 5⟩ rfl).2 ⟨ErrorKind.notFound⟩ rfl⟩

/-- C6: `into_path` transitions the object to Consumed and returns the
recorded path without deleting the file (its trace contains no deletion
and it does not touch the filesystem at all); the destructor that runs
afterwards on the Consumed object deletes and modifies nothing. -/
theorem intoPath_spec (t : NamedTempFile) (fs : FS)
    (i : NamedTempFileInner) (h : t.inner = some i) :
    intoPath t = some (i.path, ⟨none⟩, [FsOp.closeHandle i.file])
  ∧ countRemoves [FsOp.closeHandle i.file] = 0
  ∧ dropNamed ⟨none⟩ fs = (⟨none⟩, fs, []) := by
  refine ⟨by simp [intoPath, h], rfl, rfl⟩

/-- Witness for C6 at the concrete Active file. -/
theorem intoPath_spec_witness :
    intoPath tEx = some (5, ⟨none⟩, [FsOp.closeHandle 3])
  ∧ countRemoves [FsOp.closeHandle 3] = 0
  ∧ dropNamed ⟨none⟩ fsEx = (⟨none⟩, fsEx, []) :=
  intoPath_spec tEx fsEx ⟨3, 5⟩ rfl

/-- C7: over a whole life of an Active object — one consuming operation
(close, persist through either outcome, into_path, or abandonment)
followed by every destructor that still has something to drop — the
final state is Consumed (the one Active→Consumed transition has
happened), at most one deletion of the backing file is ever attempted,
and a Consumed object references no inner body and its destructor
performs no OS action (so no transition can happen twice). -/
theorem lifecycle_once (t : NamedTempFile) (fs : FS) (a : LifeAction)
    (i : NamedTempFileInner) (h : t.inner = some i) :
    (runLife t fs a).1.inner = none
  ∧ countRemoves (runLife t fs a).2.2 ≤ 1
  ∧ getInner ⟨none⟩ = none
  ∧ (∀ fs2, dropNamed ⟨none⟩ fs2 = (⟨none⟩, fs2, [])) := by
  have hmain : (runLife t fs a).1.inner = none ∧
      countRemoves (runLife t fs a).2.2 ≤ 1 := by
    cases a with
    | doAbandon =>
      constructor <;> simp [runLife, dropNamed, h, countRemoves]
    | doClose =>
      cases hr : fsRemoveFile fs i.path with
      | ok fs2 =>
        constructor <;>
          simp [runLife, close, dropNamed, h, hr, countRemoves]
      | error e =>
        constructor <;>
          simp [runLife, close, dropNamed, h, hr, countRemoves]
    | doIntoPath =>
      constructor <;>
        simp [runLife, intoPath, dropNamed, h, countRemoves]
    | doPersist renameFn dst =>
      cases hr : renameFn fs i.path dst with
      | ok fs2 =>
        constructor <;>
          simp [runLife, persist, dropNamed, h, hr, countRemoves]
      | error e =>
        cases hrm : fsRemoveFile fs i.path with
        | ok fs3 =>
          constructor <;>
            simp [runLife, persist, dropNamed, h, hr, hrm, countRemoves]
        | error e2 =>
          constructor <;>
            simp [runLife, persist, dropNamed, h, hr, hrm, countRemoves]
  exact ⟨hmain.1, hmain.2, rfl, fun fs2 => rfl⟩

/-- Witness for C7 at the concrete Active file, through `close`. -/
theorem lifecycle_once_witness :
    (runLife tEx fsEx LifeAction.doClose).1.inner = none
  ∧ countRemoves (runLife tEx fsEx LifeAction.doClose).2.2 ≤ 1
  ∧ getInner ⟨none⟩ = none
  ∧ dropNamed ⟨none⟩ fsEx = (⟨none⟩, fsEx, []) := by
  have h := lifecycle_once tEx fsEx LifeAction.doClose ⟨3, 5⟩ rfl
  exact ⟨h.1, h.2.1, h.2.2.1, h.2.2.2 fsEx⟩

/-- C9: on an Active object every accessor and lifecycle operation that
internally unwraps the option succeeds (never panics), and every object
built by the creation loop is Active — so for sequences of public-API
calls, in which the by-value consuming operations make the object
unreachable afterwards, no unwrap ever sees `None`. -/
theorem no_unwrap_panics (t : NamedTempFile) (fs : FS)
    (i : NamedTempFileInner) (h : t.inner = some i) :
    (getInner t).isSome
  ∧ (pathOfTemp t).isSome
  ∧ (close t fs).isSome
  ∧ (intoPath t).isSome
  ∧ (∀ renameFn d, (persist renameFn t d fs).isSome)
  ∧ (∀ pathAt att fuel k t2,
      newInLoop pathAt att k fuel = some (.ok t2) → t2.inner.isSome) := by
  refine ⟨?_, ?_, ?_, ?_, ?_, ?_⟩
  · simp [getInner, h]
  · simp [pathOfTemp, getInner, h]
  · cases hr : fsRemoveFile fs i.path <;> simp [close, h, hr]
  · simp [intoPath, h]
  · intro renameFn d
    cases hr : renameFn fs i.path d <;> simp [persist, h, hr]
  · exact fun pA aT fuel k t2 hh => newInLoop_ok_active pA aT fuel k t2 hh

/-- Witness for C9 at the concrete Active file and creation oracle. -/
theorem no_unwrap_panics_witness :
    (getInner tEx).isSome
  ∧ (pathOfTemp tEx).isSome
  ∧ (close tEx fsEx).isSome
  ∧ (intoPath tEx).isSome
  ∧ (persist fsRename tEx 9 fsEx).isSome
  ∧ (NamedTempFile.mk (some ⟨7, pathEx 1⟩)).inner.isSome := by
  have h := no_unwrap_panics tEx fsEx ⟨3, 5⟩ rfl
  exact ⟨h.1, h.2.1, h.2.2.1, h.2.2.2.1, h.2.2.2.2.1 fsRename 9,
    h.2.2.2.2.2 pathEx attEx 2 0 ⟨some ⟨7, pathEx 1⟩⟩ rfl⟩

/-- Concrete `PersistError` for witnesses: a cross-device failure
holding the still-Active file. -/
def peEx : PersistError := ⟨⟨ErrorKind.crossDeviceLink⟩, tEx⟩

/-- C10: converting a `PersistError` into an I/O error yields exactly
the embedded error, and the embedded still-Active temporary file is
dropped by the conversion: its destructor's close-then-delete runs, so
the file the caller was told is still usable is deleted as a side
effect whenever it exists. -/
theorem persistError_conversion (pe : PersistError) (fs : FS)
    (i : NamedTempFileInner) (h : pe.file.inner = some i) :
    (ioErrorOfPersistError pe fs).1 = pe.error
  ∧ (ioErrorOfPersistError pe fs).2.1 = ⟨none⟩
  ∧ (ioErrorOfPersistError pe fs).2.2.2 =
      [FsOp.closeHandle i.file, FsOp.removeFile i.path]
  ∧ (∀ fs2, fsRemoveFile fs i.path = .ok fs2 →
      (ioErrorOfPersistError pe fs).2.2.1 = fs2) := by
  refine ⟨rfl, ?_, ?_, ?_⟩
  · simp [ioErrorOfPersistError, dropNamed, h]
  · simp [ioErrorOfPersistError, dropNamed, h]
  · intro fs2 hr
    simp [ioErrorOfPersistError, dropNamed, h, hr]

/-- Witness for C10: converting the concrete failed-persist error
returns the cross-device error and deletes the temporary file at
path 5. -/
theorem persistError_conversion_witness :
    (ioErrorOfPersistError peEx fsEx).1 = ⟨ErrorKind.crossDeviceLink⟩
  ∧ (ioErrorOfPersistError peEx fsEx).2.1 = ⟨none⟩
  ∧ (ioErrorOfPersistError peEx fsEx).2.2.2 =
      [FsOp.closeHandle 3, FsOp.removeFile 5]
  ∧ (ioErrorOfPersistError peEx fsEx).2.2.1 = fsEx.erase 5 := by
  have h := persistError_conversion peEx fsEx ⟨3, 5⟩ rfl
  exact ⟨h.1, h.2.1, h.2.2.1, h.2.2.2 (fsEx.erase 5) rfl⟩

end Tempfile
